import Mathlib

/-!
Verification of the OpenSea auction alert bot's monitoring cycle
(`OpenSeaAlertBot.py`).

The embedding models the body of `get_nft_alerts` (the `while True` monitor
loop), the per-item evaluation (price extraction, BUSD conversion, ratio
computation, threshold check), the Telegram dispatch `send_telegram_msg`, and
the spreadsheet publish `update_spreadsheet`.  Python exceptions are modelled
with `Except`: an uncaught exception aborts the enclosing computation, exactly
as in the source, where the loop body contains no exception handler around the
per-item extraction, the dispatch, or the publish.
-/

namespace OpenSeaBot

/-- Round a rational to the nearest integer, ties to even
(the behaviour of Python 3 `round` on the model's exact rationals). -/
def roundHalfEven (q : ℚ) : ℤ :=
  let f := ⌊q⌋
  let frac := q - (f : ℚ)
  if frac < 1/2 then f
  else if 1/2 < frac then f + 1
  else if f % 2 = 0 then f else f + 1

/-- Python `round(x, 2)`: round to two decimal places. -/
def pyRound2 (q : ℚ) : ℚ := ((roundHalfEven (q * 100) : ℤ) : ℚ) / 100

/-- The Python exceptions that can escape the pieces of the monitor loop. -/
inductive PyErr
  /-- `ValueError` from `float(...)` on malformed price text, or a missing
  price element (`TimeoutException` / `NoSuchElementException`); line 341. -/
  | valueError
  /-- `NoSuchElementException` from `find_element(By.TAG_NAME, 'a')`; line 347. -/
  | noSuchElement
  /-- `ZeroDivisionError` from `trait_balance / listing_price`; line 350. -/
  | zeroDivision
  /-- A `requests` network exception from `requests.get` in
  `send_telegram_msg`; line 158. -/
  | requestException
  /-- A gspread / Google API error from `update_spreadsheet`
  (unreachable store, authentication failure, rejected write). -/
  | apiError
  /-- `IndexError` while pairing cells with column values in
  `update_spreadsheet`; lines 261-264. -/
  | indexError
  deriving DecidableEq

/-- One raw `article` element of the rendered page.  `priceText` is the
numeric value parsed from the price element's text (`none` when the element
is missing or its text is malformed); `link` is the `href` of the item's
anchor (`none` when the anchor element is missing). -/
structure RawItem where
  priceText : Option ℚ
  link : Option String
  deriving DecidableEq

/-- The settings the monitor loop reads: `self.busd_price` (conversion rate
multiplied onto every extracted price, line 341) and `self.ratio`
(the alert threshold compared at line 356). -/
structure Config where
  busdPrice : ℚ
  ratio : ℚ
  deriving DecidableEq

/-- The per-item `collection_stats` dictionary built at line 352:
`{"Listing Price": ..., "Account Value": ..., "Ratio": ..., "Link": ...}`. -/
structure CollectionStats where
  listingPrice : ℚ
  accountValue : ℤ
  ratio : ℚ
  link : String
  deriving DecidableEq

/-- Lines 340-352: extract the listing price text, convert by `busd_price`,
extract the link, and compute `ratio = round(trait_balance / listing_price, 2)`.
Any failure raises; a zero converted price raises `ZeroDivisionError` at the
division. -/
def evalListingItem (cfg : Config) (balance : ℤ) (it : RawItem) :
    Except PyErr CollectionStats :=
  match it.priceText with
  | none => .error .valueError
  | some p =>
    let listingPrice := p * cfg.busdPrice
    match it.link with
    | none => .error .noSuchElement
    | some url =>
      if listingPrice = 0 then .error .zeroDivision
      else .ok ⟨listingPrice, balance, pyRound2 ((balance : ℚ) / listingPrice), url⟩

/-- Outcome of the single `requests.get` call inside `send_telegram_msg`:
either a response with some HTTP status, or a raised network exception. -/
inductive DispatchOutcome
  | response (status : ℕ)
  | networkError
  deriving DecidableEq

/-- Lines 155-160 (`send_telegram_msg`): one `requests.get`, no status check,
no exception handler; the parsed response body is returned.  A network
exception propagates; any response status — 2xx or not — returns normally. -/
def sendTelegramMsg : DispatchOutcome → Except PyErr ℕ
  | .networkError => .error .requestException
  | .response s => .ok s

/-- The three parallel lists built during one cycle (lines 320-322, 360-363)
together with the alert messages actually dispatched (line 358). -/
structure CycleOutput where
  prices : List ℚ
  balances : List ℤ
  links : List String
  alerts : List CollectionStats
  deriving DecidableEq

/-- Lines 337-363: the `for listing_item in ...` loop.  Each item is
evaluated; if its ratio is `>= self.ratio` the stats are sent to Telegram
(`dispatch n` is the outcome of the `n`-th dispatch of the cycle); then the
price, balance and link are appended to the three lists.  There is no
exception handler in the loop body, so the first raised exception aborts the
whole traversal. -/
def processItems (cfg : Config) (balance : ℤ) (dispatch : ℕ → DispatchOutcome) :
    List RawItem → ℕ → Except PyErr CycleOutput
  | [], _ => .ok ⟨[], [], [], []⟩
  | it :: rest, n =>
    match evalListingItem cfg balance it with
    | .error e => .error e
    | .ok stats =>
      if cfg.ratio ≤ stats.ratio then
        match sendTelegramMsg (dispatch n) with
        | .error e => .error e
        | .ok _ =>
          match processItems cfg balance dispatch rest (n + 1) with
          | .error e => .error e
          | .ok out =>
            .ok ⟨stats.listingPrice :: out.prices, balance :: out.balances,
                 stats.link :: out.links, stats :: out.alerts⟩
      else
        match processItems cfg balance dispatch rest n with
        | .error e => .error e
        | .ok out =>
          .ok ⟨stats.listingPrice :: out.prices, balance :: out.balances,
               stats.link :: out.links, out.alerts⟩

/-- The evaluation of every item of a cycle, in page order, with the first
raised exception propagated: the reference traversal used to state what a
completed `processItems` run computed. -/
def evalItems (cfg : Config) (balance : ℤ) :
    List RawItem → Except PyErr (List CollectionStats)
  | [] => .ok []
  | it :: rest =>
    match evalListingItem cfg balance it with
    | .error e => .error e
    | .ok s =>
      match evalItems cfg balance rest with
      | .error e => .error e
      | .ok l => .ok (s :: l)

/-- Everything one iteration of the `while True` loop observes from the
outside world: the trait-balance wait and read (lines 308-317, `none` when
the wait times out), whether the `article` wait succeeds (lines 324-333),
the rendered items, the outcomes of the cycle's Telegram dispatches, and
whether the spreadsheet write succeeds (line 369). -/
structure CycleInput where
  balance : Option ℤ
  itemsAppear : Bool
  items : List RawItem
  dispatch : ℕ → DispatchOutcome
  publishOk : Bool

/-- What one completed loop iteration did. -/
inductive CycleEvent
  /-- The `article` wait timed out: "No item found, going to next cycle". -/
  | emptyMarket
  /-- A full pass: items evaluated, alerts dispatched, snapshot published. -/
  | published (out : CycleOutput)
  deriving DecidableEq

/-- How a run of the loop stopped (relative to the supplied inputs). -/
inductive RunEnd
  /-- All supplied cycle inputs were consumed; the loop is still running. -/
  | outOfInput
  /-- The trait-balance wait timed out: the `except: return` at line 314. -/
  | returned
  /-- An uncaught Python exception escaped `get_nft_alerts`. -/
  | crashed (e : PyErr)
  deriving DecidableEq

/-- The observable trace of a run: one event per completed iteration, then
how the run stopped. -/
structure RunTrace where
  events : List CycleEvent
  ending : RunEnd
  deriving DecidableEq

/-- Result of one iteration of the `while True` body. -/
inductive StepResult
  | event (e : CycleEvent)
  | ret
  | crash (e : PyErr)
  deriving DecidableEq

/-- One iteration of the `while True` body (lines 306-370): wait for the
trait balance (timeout returns), read it, wait for items (timeout is a
retryable empty-market cycle), evaluate all items with conditional alerts,
and publish the three lists to the spreadsheet.  `processItems` errors and
publish errors are uncaught. -/
def runCycle (cfg : Config) (c : CycleInput) : StepResult :=
  match c.balance with
  | none => .ret
  | some bal =>
    if c.itemsAppear then
      match processItems cfg bal c.dispatch c.items 0 with
      | .error e => .crash e
      | .ok out => if c.publishOk then .event (.published out) else .crash .apiError
    else .event .emptyMarket

/-- The monitor loop, run against a finite prefix of cycle inputs.  Each
iteration depends only on the configuration and on that iteration's input:
the loop body keeps no state from one iteration to the next. -/
def monitorLoop (cfg : Config) : List CycleInput → RunTrace
  | [] => ⟨[], .outOfInput⟩
  | c :: rest =>
    match runCycle cfg c with
    | .ret => ⟨[], .returned⟩
    | .crash e => ⟨[], .crashed e⟩
    | .event ev =>
      let t := monitorLoop cfg rest
      ⟨ev :: t.events, t.ending⟩

/-- A worksheet: three columns of cells addressed by row number. -/
structure Sheet where
  colA : ℕ → Option ℚ
  colB : ℕ → Option ℤ
  colC : ℕ → Option String

/-- Overwrite rows `2 .. vals.length + 1` of one column (the range
`X2:X{len+1}` selected at lines 256-258), leaving every other row unchanged. -/
def writeCol {α : Type} (col : ℕ → Option α) (vals : List α) : ℕ → Option α :=
  fun r => if 2 ≤ r ∧ r < 2 + vals.length then vals[r - 2]? else col r

/-- Lines 242-269 (`update_spreadsheet`): the three cell ranges are all sized
by `len(listing_prices)`; the assignment loop raises `IndexError` if another
column's list is shorter.  Then `update_cells` is called three times, once
per column, in order.  The returned list holds the sheet state visible to an
external viewer after each of the three batch writes. -/
def updateSpreadsheet (s : Sheet) (prices : List ℚ) (balances : List ℤ)
    (links : List String) : Except PyErr (List Sheet) :=
  if balances.length < prices.length ∨ links.length < prices.length then
    .error .indexError
  else
    let s1 : Sheet := { s with colA := writeCol s.colA prices }
    let s2 : Sheet := { s1 with colB := writeCol s1.colB (balances.take prices.length) }
    let s3 : Sheet := { s2 with colC := writeCol s2.colC (links.take prices.length) }
    .ok [s1, s2, s3]

/-!
Concrete fixtures: a configuration with conversion rate 1 and threshold 20,
and the page items used by the concrete counterexamples and witnesses.
-/

/-- A configuration: `BUSDPrice = 1`, alert threshold `Ratio = 20`. -/
def cfg0 : Config := ⟨1, 20⟩

/-- Every Telegram dispatch of the cycle receives a 200 response. -/
def dispatchOk : ℕ → DispatchOutcome := fun _ => .response 200

/-- Every Telegram dispatch of the cycle raises a network exception. -/
def dispatchFail : ℕ → DispatchOutcome := fun _ => .networkError

/-- A well-formed item: price text 4000, anchor `u1`. -/
def goodItem : RawItem := ⟨some 4000, some "u1"⟩

/-- An item whose price element is missing or malformed. -/
def badItem : RawItem := ⟨none, some "u2"⟩

/-- A well-formed item: price text 6000, anchor `u3`. -/
def goodItem2 : RawItem := ⟨some 6000, some "u3"⟩

/-- A well-formed item whose ratio lands exactly on the threshold. -/
def boundaryItem : RawItem := ⟨some 5000, some "u4"⟩

/-- A well-formed item with price text `0`. -/
def zeroItem : RawItem := ⟨some 0, some "u5"⟩

/-- Stats of `goodItem` at balance 100000: ratio 25. -/
def statsGood : CollectionStats := ⟨4000, 100000, 25, "u1"⟩

/-- Stats of `goodItem2` at balance 100000: ratio 16.67. -/
def statsGood2 : CollectionStats := ⟨6000, 100000, 1667/100, "u3"⟩

/-- Stats of `boundaryItem` at balance 100000: ratio 20, equal to the threshold. -/
def statsBoundary : CollectionStats := ⟨5000, 100000, 20, "u4"⟩

/-- Output of a completed cycle over `[goodItem, goodItem2]`. -/
def outG : CycleOutput := ⟨[4000, 6000], [100000, 100000], ["u1", "u3"], [statsGood]⟩

/-- Output of a completed cycle over `[goodItem]`. -/
def outG1 : CycleOutput := ⟨[4000], [100000], ["u1"], [statsGood]⟩

/-- Output of a completed cycle over `[goodItem2]` (no alert fires). -/
def outG2 : CycleOutput := ⟨[6000], [100000], ["u3"], []⟩

/-- Output of a completed cycle over `[boundaryItem]`: the boundary alert fires. -/
def outBoundary : CycleOutput := ⟨[5000], [100000], ["u4"], [statsBoundary]⟩

/-- A cycle whose second item has malformed price text. -/
def cycleC1 : CycleInput := ⟨some 100000, true, [goodItem, badItem, goodItem2], dispatchOk, true⟩

/-- A cycle whose (alerting) first item meets a Telegram network error. -/
def cycleC2 : CycleInput := ⟨some 100000, true, [goodItem, goodItem2], dispatchFail, true⟩

/-- A fully successful cycle: one alerting item, one non-alerting item. -/
def cycleGood : CycleInput := ⟨some 100000, true, [goodItem, goodItem2], dispatchOk, true⟩

/-- A cycle whose spreadsheet write fails. -/
def cyclePubFail : CycleInput := ⟨some 100000, true, [goodItem2], dispatchOk, false⟩

/-- A cycle whose first item has price `0`. -/
def cycleC6 : CycleInput := ⟨some 100000, true, [zeroItem, goodItem2], dispatchOk, true⟩

/-- A cycle in which the wait for listing items times out. -/
def emptyCycle : CycleInput := ⟨some 100000, false, [], dispatchOk, true⟩

/-- A worksheet holding a previously published one-row snapshot:
price 1, balance 5, link `old` in row 2. -/
def demoSheet : Sheet :=
  ⟨fun r => if r = 2 then some 1 else none,
   fun r => if r = 2 then some 5 else none,
   fun r => if r = 2 then some "old" else none⟩

/-!
Helper lemmas: inversion of the per-item evaluation, the shape of a completed
cycle, the index characterisation of `evalItems`, the correspondence between
loop events and cycle inputs, and evaluation of the column writes.
-/

/-- The threshold stored in `cfg0`. -/
theorem cfg0_ratio : cfg0.ratio = 20 := rfl

/-- Inversion: a successful per-item evaluation means the price text and the
anchor were present, the converted price is nonzero, and the produced stats
carry exactly the converted price, the balance, the rounded ratio and the
link. -/
theorem evalListingItem_ok {cfg : Config} {balance : ℤ} {it : RawItem}
    {s : CollectionStats} (h : evalListingItem cfg balance it = .ok s) :
    ∃ p url, it.priceText = some p ∧ it.link = some url ∧ p * cfg.busdPrice ≠ 0 ∧
      s = ⟨p * cfg.busdPrice, balance,
           pyRound2 ((balance : ℚ) / (p * cfg.busdPrice)), url⟩ := by
  cases hp : it.priceText with
  | none => simp [evalListingItem, hp] at h
  | some p =>
    cases hl : it.link with
    | none => simp [evalListingItem, hp, hl] at h
    | some url =>
      simp only [evalListingItem, hp, hl] at h
      split at h
      · exact absurd h (by simp)
      · rename_i hz
        refine ⟨p, url, rfl, rfl, hz, ?_⟩
        simpa using h.symm

/-- A completed `processItems` run is determined by the per-item evaluations:
the three lists are the evaluations' prices, a constant balance column, and
the links, and the alerts are exactly the evaluations passing the threshold
filter. -/
theorem processItems_ok {cfg : Config} {balance : ℤ} {dispatch : ℕ → DispatchOutcome} :
    ∀ {items : List RawItem} {n : ℕ} {out : CycleOutput},
      processItems cfg balance dispatch items n = .ok out →
      ∃ stats, evalItems cfg balance items = .ok stats ∧
        out = ⟨stats.map CollectionStats.listingPrice,
               List.replicate stats.length balance,
               stats.map CollectionStats.link,
               stats.filter fun s => decide (cfg.ratio ≤ s.ratio)⟩ := by
  intro items
  induction items with
  | nil =>
    intro n out h
    refine ⟨[], rfl, ?_⟩
    simp only [processItems, Except.ok.injEq] at h
    simp [← h]
  | cons it rest ih =>
    intro n out h
    rw [processItems] at h
    split at h
    · exact absurd h (by simp)
    · rename_i s hev
      split at h
      · rename_i halert
        split at h
        · exact absurd h (by simp)
        · split at h
          · exact absurd h (by simp)
          · rename_i out2 hrec
            obtain ⟨stats, hst, hout2⟩ := ih hrec
            refine ⟨s :: stats, by simp [evalItems, hev, hst], ?_⟩
            subst hout2
            simp only [Except.ok.injEq] at h
            simp [← h, List.filter, halert, List.replicate_succ]
      · rename_i halert
        split at h
        · exact absurd h (by simp)
        · rename_i out2 hrec
          obtain ⟨stats, hst, hout2⟩ := ih hrec
          refine ⟨s :: stats, by simp [evalItems, hev, hst], ?_⟩
          subst hout2
          simp only [Except.ok.injEq] at h
          simp [← h, List.filter, halert, List.replicate_succ]

/-- Index characterisation of a successful cycle evaluation: there is one
stats record per raw item, in page order, each built from that item's price
text and link. -/
theorem evalItems_ok_get {cfg : Config} {balance : ℤ} :
    ∀ {items : List RawItem} {stats : List CollectionStats},
      evalItems cfg balance items = .ok stats →
      stats.length = items.length ∧
      ∀ i (hi : i < items.length), ∃ p url,
        items[i].priceText = some p ∧
        items[i].link = some url ∧
        p * cfg.busdPrice ≠ 0 ∧
        stats[i]? = some ⟨p * cfg.busdPrice, balance,
          pyRound2 ((balance : ℚ) / (p * cfg.busdPrice)), url⟩ := by
  intro items
  induction items with
  | nil =>
    intro stats h
    simp only [evalItems, Except.ok.injEq] at h
    subst h
    exact ⟨rfl, fun i hi => absurd hi (by simp)⟩
  | cons it rest ih =>
    intro stats h
    rw [evalItems] at h
    split at h
    · exact absurd h (by simp)
    · rename_i s hev
      split at h
      · exact absurd h (by simp)
      · rename_i l hrest
        simp only [Except.ok.injEq] at h
        subst h
        obtain ⟨hlen, hidx⟩ := ih hrest
        refine ⟨by simp [hlen], ?_⟩
        intro i hi
        cases i with
        | zero =>
          obtain ⟨p, url, hp, hl, hz, hs⟩ := evalListingItem_ok hev
          exact ⟨p, url, by simpa using hp, by simpa using hl, hz, by simp [hs]⟩
        | succ i2 =>
          have hi2 : i2 < rest.length := by simpa using hi
          obtain ⟨p, url, hp, hl, hz, hs⟩ := hidx i2 hi2
          exact ⟨p, url, by simpa using hp, by simpa using hl, hz, by simpa using hs⟩

/-- The `k`-th event of a trace is fully determined by the `k`-th cycle
input: the loop body carries no state between iterations. -/
theorem monitorLoop_events_get {cfg : Config} :
    ∀ {inputs : List CycleInput} {k : ℕ} {e : CycleEvent},
      ((monitorLoop cfg inputs).events)[k]? = some e →
      ∃ c, inputs[k]? = some c ∧ runCycle cfg c = .event e := by
  intro inputs
  induction inputs with
  | nil => intro k e h; simp [monitorLoop] at h
  | cons c rest ih =>
    intro k e h
    rw [monitorLoop] at h
    cases hrc : runCycle cfg c with
    | ret => rw [hrc] at h; simp at h
    | crash e2 => rw [hrc] at h; simp at h
    | event ev =>
      rw [hrc] at h
      simp only at h
      cases k with
      | zero =>
        simp only [List.getElem?_cons_zero, Option.some.injEq] at h
        exact ⟨c, by simp, h ▸ hrc⟩
      | succ k2 =>
        simp only [List.getElem?_cons_succ] at h
        obtain ⟨c2, hc2, hrun⟩ := ih h
        exact ⟨c2, by simpa using hc2, hrun⟩

/-- Evaluating `goodItem` at balance 100000: ratio `round(100000/4000, 2) = 25`. -/
theorem eval_goodItem : evalListingItem cfg0 100000 goodItem = .ok statsGood := by
  simp only [evalListingItem, goodItem, cfg0, statsGood]
  norm_num [pyRound2, roundHalfEven]

/-- Evaluating `badItem` raises: its price text is missing. -/
theorem eval_badItem : evalListingItem cfg0 100000 badItem = .error .valueError := by
  simp [evalListingItem, badItem]

/-- Evaluating `goodItem2` at balance 100000: ratio `round(100000/6000, 2) = 16.67`. -/
theorem eval_goodItem2 : evalListingItem cfg0 100000 goodItem2 = .ok statsGood2 := by
  simp only [evalListingItem, goodItem2, cfg0, statsGood2]
  norm_num [pyRound2, roundHalfEven]

/-- Evaluating `boundaryItem` at balance 100000: ratio exactly 20. -/
theorem eval_boundaryItem : evalListingItem cfg0 100000 boundaryItem = .ok statsBoundary := by
  simp only [evalListingItem, boundaryItem, cfg0, statsBoundary]
  norm_num [pyRound2, roundHalfEven]

/-- One-item cycle over `goodItem`: completes, alert dispatched. -/
theorem proc_goodItem : processItems cfg0 100000 dispatchOk [goodItem] 0 = .ok outG1 := by
  simp only [processItems, eval_goodItem, dispatchOk, sendTelegramMsg, cfg0_ratio,
    outG1, statsGood]
  norm_num

/-- One-item cycle over `goodItem2`: completes, no alert (16.67 < 20). -/
theorem proc_goodItem2 : processItems cfg0 100000 dispatchOk [goodItem2] 0 = .ok outG2 := by
  simp only [processItems, eval_goodItem2, dispatchOk, sendTelegramMsg, cfg0_ratio,
    outG2, statsGood2]
  norm_num

/-- Two-item cycle: completes with one alert and both items in the lists. -/
theorem proc_two : processItems cfg0 100000 dispatchOk [goodItem, goodItem2] 0 = .ok outG := by
  simp only [processItems, eval_goodItem, eval_goodItem2, dispatchOk, sendTelegramMsg,
    cfg0_ratio, outG, statsGood, statsGood2]
  norm_num

/-- Boundary cycle: ratio 20 equals the threshold 20 and the alert fires. -/
theorem proc_boundary : processItems cfg0 100000 dispatchOk [boundaryItem] 0 = .ok outBoundary := by
  simp only [processItems, eval_boundaryItem, dispatchOk, sendTelegramMsg, cfg0_ratio,
    outBoundary, statsBoundary]
  norm_num

/-- Two identical successful cycles in a row publish twice and keep running. -/
theorem good_run : monitorLoop cfg0 [cycleGood, cycleGood] =
    ⟨[.published outG, .published outG], .outOfInput⟩ := by
  simp only [monitorLoop, runCycle, cycleGood, proc_two]
  norm_num

/-- Rows 2..N+1 of a written column hold the new values. -/
theorem writeCol_in {α : Type} (col : ℕ → Option α) (vals : List α) (i : ℕ)
    (hi : i < vals.length) : writeCol col vals (2 + i) = vals[i]? := by
  have hc : 2 ≤ 2 + i ∧ 2 + i < 2 + vals.length := by omega
  rw [writeCol, if_pos hc]
  congr 1
  omega

/-- Rows outside 2..N+1 of a written column are unchanged. -/
theorem writeCol_out {α : Type} (col : ℕ → Option α) (vals : List α) (r : ℕ)
    (hr : r < 2 ∨ 2 + vals.length ≤ r) : writeCol col vals r = col r := by
  rw [writeCol, if_neg]
  omega

/-!
Claim theorems.
-/

/-- Claim C1, counterexample.  The claim says a per-item extraction failure
drops only that item and the cycle still evaluates, alerts and publishes the
rest.  In the code the `for` loop over items has no exception handler: with
items `[goodItem, badItem, goodItem2]` the malformed second item raises
`ValueError`, nothing is published, the third item is never evaluated and the
whole run crashes. -/
theorem c1_counterexample : monitorLoop cfg0 [cycleC1] = ⟨[], .crashed .valueError⟩ := by
  simp only [monitorLoop, runCycle, cycleC1, processItems, eval_goodItem, eval_badItem,
    dispatchOk, sendTelegramMsg, cfg0_ratio, statsGood]
  norm_num

/-- Claim C1, amended.  If any item of a cycle has a missing/malformed price
element or a missing anchor, the cycle raises an uncaught exception: the
monitor loop produces no event for that cycle (nothing is published) and
terminates with a crash; no later cycle runs. -/
theorem c1_extraction_failure_aborts_run (cfg : Config) (c : CycleInput)
    (tail : List CycleInput) (b : ℤ) (bad : RawItem)
    (hb : c.balance = some b) (hia : c.itemsAppear = true)
    (hmem : bad ∈ c.items) (hbad : bad.priceText = none ∨ bad.link = none) :
    ∃ e, monitorLoop cfg (c :: tail) = ⟨[], .crashed e⟩ := by
  cases hres : processItems cfg b c.dispatch c.items 0 with
  | error e =>
    refine ⟨e, ?_⟩
    rw [monitorLoop]
    have hrc : runCycle cfg c = .crash e := by
      rw [runCycle, hb]
      simp [hia, hres]
    rw [hrc]
  | ok out =>
    exfalso
    obtain ⟨stats, hst, -⟩ := processItems_ok hres
    obtain ⟨-, hidx⟩ := evalItems_ok_get hst
    obtain ⟨i, hi, hity⟩ := List.mem_iff_getElem.mp hmem
    obtain ⟨p, url, hp, hl, -, -⟩ := hidx i hi
    cases hbad with
    | inl h0 => rw [hity, h0] at hp; exact Option.noConfusion hp
    | inr h0 => rw [hity, h0] at hl; exact Option.noConfusion hl

/-- Witness for the amended C1 at a concrete cycle. -/
theorem c1_extraction_failure_aborts_run_witness :
    ∃ e, monitorLoop cfg0 (cycleC1 :: []) = ⟨[], .crashed e⟩ :=
  c1_extraction_failure_aborts_run cfg0 cycleC1 [] 100000 badItem rfl rfl
    (by simp [cycleC1]) (Or.inl rfl)

/-- Claim C2, counterexample.  The claim says a dispatch failure is logged and
swallowed and never aborts the cycle.  In the code `send_telegram_msg` has no
exception handler: the alerting first item's Telegram call raises a network
exception, the second item is never evaluated, nothing is published, and the
following (fully healthy) cycle never runs. -/
theorem c2_counterexample :
    monitorLoop cfg0 [cycleC2, cycleGood] = ⟨[], .crashed .requestException⟩ := by
  simp only [monitorLoop, runCycle, cycleC2, processItems, eval_goodItem,
    dispatchFail, sendTelegramMsg, cfg0_ratio, statsGood]
  norm_num

/-- Claim C2, amended.  A dispatch network error propagates as an uncaught
exception and aborts the cycle (remaining items unevaluated, no publish, no
retry); a non-2xx response, by contrast, does not abort — the response status
is never inspected, so the failure is not detected at all. -/
theorem c2_network_error_aborts_bad_status_ignored :
    (∀ (cfg : Config) (bal : ℤ) (d : ℕ → DispatchOutcome) (it : RawItem)
       (rest : List RawItem) (n : ℕ) (s : CollectionStats),
       evalListingItem cfg bal it = .ok s → cfg.ratio ≤ s.ratio →
       d n = .networkError →
       processItems cfg bal d (it :: rest) n = .error .requestException) ∧
    (∀ status : ℕ, sendTelegramMsg (.response status) = .ok status) := by
  constructor
  · intro cfg bal d it rest n s hev halert hd
    rw [processItems]
    simp [hev, halert, hd, sendTelegramMsg]
  · intro status
    rfl

/-- Witness for the amended C2: a network error on `goodItem`'s alert aborts
the traversal, and a 500 response returns normally from the dispatch. -/
theorem c2_network_error_aborts_bad_status_ignored_witness :
    processItems cfg0 100000 dispatchFail [goodItem] 0 = .error .requestException ∧
    sendTelegramMsg (.response 500) = .ok 500 :=
  ⟨c2_network_error_aborts_bad_status_ignored.1 cfg0 100000 dispatchFail goodItem [] 0
      statsGood eval_goodItem (by rw [cfg0_ratio]; norm_num [statsGood]) rfl,
   c2_network_error_aborts_bad_status_ignored.2 500⟩

/-- Claim C3, counterexample.  The claim says a publish failure is fatal for
that cycle only and the next cycle proceeds normally.  In the code the
`update_spreadsheet` call has no exception handler: when the write fails the
loop crashes, the completed cycle's event is lost and the following healthy
cycle never runs. -/
theorem c3_counterexample :
    monitorLoop cfg0 [cyclePubFail, cycleGood] = ⟨[], .crashed .apiError⟩ := by
  simp only [monitorLoop, runCycle, cyclePubFail, proc_goodItem2]
  norm_num

/-- Claim C3, amended.  A publish failure terminates the monitor loop: the
store's exception propagates uncaught out of `get_nft_alerts`, and no
subsequent cycle performs extraction, alerting or a fresh publish. -/
theorem c3_publish_failure_kills_loop (cfg : Config) (c : CycleInput)
    (tail : List CycleInput) (b : ℤ) (out : CycleOutput)
    (hb : c.balance = some b) (hia : c.itemsAppear = true)
    (hproc : processItems cfg b c.dispatch c.items 0 = .ok out)
    (hpub : c.publishOk = false) :
    monitorLoop cfg (c :: tail) = ⟨[], .crashed .apiError⟩ := by
  rw [monitorLoop]
  have hrc : runCycle cfg c = .crash .apiError := by
    rw [runCycle, hb]
    simp [hia, hproc, hpub]
  rw [hrc]

/-- Witness for the amended C3 at a concrete two-cycle run. -/
theorem c3_publish_failure_kills_loop_witness :
    monitorLoop cfg0 (cyclePubFail :: [cycleGood]) = ⟨[], .crashed .apiError⟩ :=
  c3_publish_failure_kills_loop cfg0 cyclePubFail [cycleGood] 100000 outG2
    rfl rfl proc_goodItem2 rfl

/-- Claim C4.  In every completed cycle, every item's stats record carries
`ratio = round(balance / (rawPrice * busdPrice), 2)`: the balance divided by
the conversion-rate-adjusted price, rounded to two decimal places. -/
theorem c4_ratio_formula (cfg : Config) (balance : ℤ)
    (dispatch : ℕ → DispatchOutcome) (items : List RawItem) (out : CycleOutput)
    (hb : 0 ≤ balance)
    (h : processItems cfg balance dispatch items 0 = .ok out) :
    ∃ stats, evalItems cfg balance items = .ok stats ∧
      ∀ i (hi : i < items.length), ∃ p url,
        items[i].priceText = some p ∧ items[i].link = some url ∧
        stats[i]? = some ⟨p * cfg.busdPrice, balance,
          pyRound2 ((balance : ℚ) / (p * cfg.busdPrice)), url⟩ := by
  obtain ⟨stats, hst, -⟩ := processItems_ok h
  obtain ⟨-, hidx⟩ := evalItems_ok_get hst
  refine ⟨stats, hst, ?_⟩
  intro i hi
  obtain ⟨p, url, hp, hl, -, hsi⟩ := hidx i hi
  exact ⟨p, url, hp, hl, hsi⟩

/-- Witness for C4 at balance 100000 and raw price 4000 (ratio 25). -/
theorem c4_ratio_formula_witness :
    (0 : ℤ) ≤ 100000 ∧
    ∃ stats, evalItems cfg0 100000 [goodItem] = .ok stats ∧
      ∀ i (hi : i < [goodItem].length), ∃ p url,
        [goodItem][i].priceText = some p ∧ [goodItem][i].link = some url ∧
        stats[i]? = some ⟨p * cfg0.busdPrice, 100000,
          pyRound2 ((100000 : ℚ) / (p * cfg0.busdPrice)), url⟩ :=
  ⟨by norm_num,
   c4_ratio_formula cfg0 100000 dispatchOk [goodItem] outG1 (by norm_num) proc_goodItem⟩

/-- Claim C5.  In every completed cycle the dispatched alerts are exactly the
items whose computed ratio passes `ratio >= threshold`, an inclusive
comparison: the alert list equals the threshold filter of the per-item
evaluations. -/
theorem c5_alert_iff_threshold (cfg : Config) (balance : ℤ)
    (dispatch : ℕ → DispatchOutcome) (items : List RawItem) (out : CycleOutput)
    (h : processItems cfg balance dispatch items 0 = .ok out) :
    ∃ stats, evalItems cfg balance items = .ok stats ∧
      out.alerts = stats.filter fun s => decide (cfg.ratio ≤ s.ratio) := by
  obtain ⟨stats, hst, hout⟩ := processItems_ok h
  exact ⟨stats, hst, by rw [hout]⟩

/-- Witness for C5 at the boundary: ratio 20 equals the threshold 20 and the
alert fires. -/
theorem c5_alert_iff_threshold_witness :
    processItems cfg0 100000 dispatchOk [boundaryItem] 0 = .ok outBoundary ∧
    outBoundary.alerts = [statsBoundary] ∧ statsBoundary.ratio = cfg0.ratio ∧
    (∃ stats, evalItems cfg0 100000 [boundaryItem] = .ok stats ∧
      outBoundary.alerts = stats.filter fun s => decide (cfg0.ratio ≤ s.ratio)) :=
  ⟨proc_boundary, rfl, rfl,
   c5_alert_iff_threshold cfg0 100000 dispatchOk [boundaryItem] outBoundary proc_boundary⟩

/-- Claim C6, counterexample.  The claim says a zero-price item is dropped
before the ratio is computed, so no division by zero occurs.  In the code
there is no zero check: the division at line 350 raises `ZeroDivisionError`
and the whole run crashes; the item is not dropped and the cycle dies. -/
theorem c6_counterexample : monitorLoop cfg0 [cycleC6] = ⟨[], .crashed .zeroDivision⟩ := by
  simp only [monitorLoop, runCycle, cycleC6, processItems, evalListingItem, zeroItem,
    cfg0, dispatchOk, sendTelegramMsg]
  norm_num

/-- Claim C6, amended.  A zero price is not dropped: it reaches the ratio
computation, whose division raises `ZeroDivisionError`, aborting the item
traversal (and with it the cycle and the loop). -/
theorem c6_zero_price_raises (cfg : Config) (bal : ℤ) (d : ℕ → DispatchOutcome)
    (it : RawItem) (rest : List RawItem) (n : ℕ) (p : ℚ) (url : String)
    (hp : it.priceText = some p) (hurl : it.link = some url)
    (hz : p * cfg.busdPrice = 0) :
    processItems cfg bal d (it :: rest) n = .error .zeroDivision := by
  rw [processItems]
  have hev : evalListingItem cfg bal it = .error .zeroDivision := by
    simp [evalListingItem, hp, hurl, hz]
  simp [hev]

/-- Witness for the amended C6 at a concrete zero-price item. -/
theorem c6_zero_price_raises_witness :
    processItems cfg0 100000 dispatchOk (zeroItem :: [goodItem2]) 0 = .error .zeroDivision :=
  c6_zero_price_raises cfg0 100000 dispatchOk zeroItem [goodItem2] 0 0 "u5"
    rfl rfl (by norm_num [cfg0])

/-- Claim C7, counterexample.  The claim says the three columns are written as
one logical batch so a viewer never sees one column updated while another
holds the previous snapshot.  The code issues three separate `update_cells`
calls: after the first, the sheet shows the new price (2) in column A while
column B still holds the previous balance (5, not the new 7). -/
theorem c7_counterexample : ∃ states,
    updateSpreadsheet demoSheet [2] [7] ["new"] = .ok states ∧
    ∃ st ∈ states, st.colA 2 = some 2 ∧ st.colB 2 = some 5 := by
  refine ⟨_, rfl, ?_⟩
  refine ⟨_, List.mem_cons_self _ _, ?_, ?_⟩
  · show writeCol demoSheet.colA [2] 2 = some 2
    simp [writeCol]
  · show demoSheet.colB 2 = some 5
    simp [demoSheet]

/-- Claim C7, amended.  Publishing writes rows 2..N+1 in three sequential
per-column batch updates (prices, then balances, then links): after the third
update all three columns hold the snapshot and the rows outside the range are
untouched, but the first intermediate state already shows the new price
column against the old balance and link columns. -/
theorem c7_publish_three_column_batches (s : Sheet) (prices : List ℚ)
    (balances : List ℤ) (links : List String)
    (hb : balances.length = prices.length) (hl : links.length = prices.length) :
    ∃ s1 s2 s3, updateSpreadsheet s prices balances links = .ok [s1, s2, s3] ∧
      s1.colA = writeCol s.colA prices ∧ s1.colB = s.colB ∧ s1.colC = s.colC ∧
      s2.colA = s1.colA ∧ s2.colC = s.colC ∧
      s3.colA = s1.colA ∧ s3.colB = s2.colB ∧
      (∀ i, i < prices.length →
        s3.colA (2 + i) = prices[i]? ∧ s3.colB (2 + i) = balances[i]? ∧
        s3.colC (2 + i) = links[i]?) ∧
      (∀ r, r < 2 ∨ 2 + prices.length ≤ r →
        s3.colA r = s.colA r ∧ s3.colB r = s.colB r ∧ s3.colC r = s.colC r) := by
  have hcond : ¬(balances.length < prices.length ∨ links.length < prices.length) := by
    omega
  have htake_b : balances.take prices.length = balances := by
    rw [← hb, List.take_length]
  have htake_l : links.take prices.length = links := by
    rw [← hl, List.take_length]
  rw [updateSpreadsheet, if_neg hcond]
  refine ⟨_, _, _, rfl, rfl, rfl, rfl, rfl, rfl, rfl, rfl, ?_, ?_⟩
  · intro i hi
    refine ⟨writeCol_in _ _ _ hi, ?_, ?_⟩
    · show writeCol s.colB (balances.take prices.length) (2 + i) = balances[i]?
      rw [htake_b]
      exact writeCol_in _ _ _ (by omega)
    · show writeCol s.colC (links.take prices.length) (2 + i) = links[i]?
      rw [htake_l]
      exact writeCol_in _ _ _ (by omega)
  · intro r hr
    refine ⟨writeCol_out _ _ _ hr, ?_, ?_⟩
    · show writeCol s.colB (balances.take prices.length) r = s.colB r
      rw [htake_b]
      exact writeCol_out _ _ _ (by omega)
    · show writeCol s.colC (links.take prices.length) r = s.colC r
      rw [htake_l]
      exact writeCol_out _ _ _ (by omega)

/-- Witness for the amended C7 at a concrete one-row snapshot. -/
theorem c7_publish_three_column_batches_witness :
    ∃ s1 s2 s3, updateSpreadsheet demoSheet [2] [7] ["new"] = .ok [s1, s2, s3] ∧
      s1.colA = writeCol demoSheet.colA [2] ∧ s1.colB = demoSheet.colB ∧
      s1.colC = demoSheet.colC ∧
      s2.colA = s1.colA ∧ s2.colC = demoSheet.colC ∧
      s3.colA = s1.colA ∧ s3.colB = s2.colB ∧
      (∀ i, i < [(2 : ℚ)].length →
        s3.colA (2 + i) = [(2 : ℚ)][i]? ∧ s3.colB (2 + i) = [(7 : ℤ)][i]? ∧
        s3.colC (2 + i) = ["new"][i]?) ∧
      (∀ r, r < 2 ∨ 2 + [(2 : ℚ)].length ≤ r →
        s3.colA r = demoSheet.colA r ∧ s3.colB r = demoSheet.colB r ∧
        s3.colC r = demoSheet.colC r) :=
  c7_publish_three_column_batches demoSheet [2] [7] ["new"] rfl rfl

/-- Claim C8.  When the wait for listing items times out, the cycle is an
empty-market cycle: nothing is published, the loop does not fail, and it goes
back to waiting — for arbitrarily many consecutive empty cycles the trace is
`n` empty-market events with the loop still running. -/
theorem c8_empty_market_retries (cfg : Config) (c : CycleInput) (n : ℕ) (b : ℤ)
    (hb : c.balance = some b) (hia : c.itemsAppear = false) :
    monitorLoop cfg (List.replicate n c) =
      ⟨List.replicate n .emptyMarket, .outOfInput⟩ := by
  induction n with
  | zero => simp [monitorLoop]
  | succ k ih =>
    rw [List.replicate_succ, monitorLoop]
    have hrc : runCycle cfg c = .event .emptyMarket := by
      rw [runCycle, hb]
      simp [hia]
    rw [hrc, ih]
    simp [List.replicate_succ]

/-- Witness for C8: three consecutive empty cycles. -/
theorem c8_empty_market_retries_witness :
    monitorLoop cfg0 (List.replicate 3 emptyCycle) =
      ⟨List.replicate 3 .emptyMarket, .outOfInput⟩ :=
  c8_empty_market_retries cfg0 emptyCycle 3 100000 rfl rfl

/-- Claim C9.  Alert decisions carry no state across cycles: two cycles given
identical inputs (same balance, same items, same dispatch responses) produce
identical events — in particular identical alert dispatch lists — regardless
of their positions in the run or of what happened in between. -/
theorem c9_stateless_cycles (cfg : Config) (inputs : List CycleInput)
    (i j : ℕ) (c : CycleInput) (ei ej : CycleEvent)
    (hi : inputs[i]? = some c) (hj : inputs[j]? = some c)
    (hei : ((monitorLoop cfg inputs).events)[i]? = some ei)
    (hej : ((monitorLoop cfg inputs).events)[j]? = some ej) :
    ei = ej := by
  obtain ⟨ci, hci, hri⟩ := monitorLoop_events_get hei
  obtain ⟨cj, hcj, hrj⟩ := monitorLoop_events_get hej
  rw [hi] at hci
  rw [hj] at hcj
  cases Option.some.inj hci
  cases Option.some.inj hcj
  exact StepResult.event.inj (hri.symm.trans hrj)

/-- Witness for C9: two identical cycles re-dispatch the identical alert. -/
theorem c9_stateless_cycles_witness :
    [cycleGood, cycleGood][0]? = some cycleGood ∧
    [cycleGood, cycleGood][1]? = some cycleGood ∧
    ((monitorLoop cfg0 [cycleGood, cycleGood]).events)[0]? = some (.published outG) ∧
    ((monitorLoop cfg0 [cycleGood, cycleGood]).events)[1]? = some (.published outG) ∧
    CycleEvent.published outG = CycleEvent.published outG :=
  ⟨rfl, rfl, by rw [good_run]; rfl, by rw [good_run]; rfl,
   c9_stateless_cycles cfg0 [cycleGood, cycleGood] 0 1 cycleGood
     (.published outG) (.published outG) rfl rfl (by rw [good_run]; rfl)
     (by rw [good_run]; rfl)⟩

/-- Claim C10.  In every cycle that reaches the publish step the three lists
handed to the sink have equal length — one entry per successfully extracted
item, in page order — and every entry of the balance list equals the single
balance read at the start of the cycle. -/
theorem c10_parallel_columns (cfg : Config) (balance : ℤ)
    (dispatch : ℕ → DispatchOutcome) (items : List RawItem) (out : CycleOutput)
    (h : processItems cfg balance dispatch items 0 = .ok out) :
    ∃ stats, evalItems cfg balance items = .ok stats ∧
      out.prices = stats.map CollectionStats.listingPrice ∧
      out.links = stats.map CollectionStats.link ∧
      out.balances = List.replicate stats.length balance ∧
      stats.length = items.length ∧
      out.prices.length = items.length ∧
      out.balances.length = items.length ∧
      out.links.length = items.length ∧
      ∀ b ∈ out.balances, b = balance := by
  obtain ⟨stats, hst, hout⟩ := processItems_ok h
  obtain ⟨hlen, -⟩ := evalItems_ok_get hst
  subst hout
  refine ⟨stats, hst, rfl, rfl, rfl, hlen, by simp [hlen], by simp [hlen],
    by simp [hlen], ?_⟩
  intro b hb
  exact List.eq_of_mem_replicate hb

/-- Witness for C10 at a concrete two-item cycle. -/
theorem c10_parallel_columns_witness :
    ∃ stats, evalItems cfg0 100000 [goodItem, goodItem2] = .ok stats ∧
      outG.prices = stats.map CollectionStats.listingPrice ∧
      outG.links = stats.map CollectionStats.link ∧
      outG.balances = List.replicate stats.length 100000 ∧
      stats.length = [goodItem, goodItem2].length ∧
      outG.prices.length = [goodItem, goodItem2].length ∧
      outG.balances.length = [goodItem, goodItem2].length ∧
      outG.links.length = [goodItem, goodItem2].length ∧
      ∀ b ∈ outG.balances, b = 100000 :=
  c10_parallel_columns cfg0 100000 dispatchOk [goodItem, goodItem2] outG proc_two

end OpenSeaBot
